import Mathlib

/-!
Shallow embedding of `kerykeion/charts/kerykeion_chart_svg.py`
(class `KerykeionChartSVG`) and proofs about it.

Modelling conventions:
* Python `float` values that the chart code only ever fills with integer
  literals or settings numbers are modelled as `ℚ` (exact arithmetic; the
  claims checked here do not depend on binary floating point rounding).
* Python dictionaries keyed by strings are modelled as association lists
  (`List (String × String)`); `dict.get(k, d)` becomes a total lookup with
  default, `dict[k]` becomes an `Except`-valued lookup that fails with a
  `keyError` exactly when the key is absent, mirroring Python `KeyError`.
* External collaborators (the drawing helpers from `charts_utils`,
  `draw_planets`, swisseph, `datetime`, the aspects calculators, file
  reads of templates and CSS themes) are out of scope per the spec and are
  passed in as opaque function parameters bundled in `Collab`.
* `raise KerykeionException(...)` / `KeyError` become `Except.error`.
-/

namespace Kerykeion

/-- Chart types accepted by `KerykeionChartSVG` (`ChartType` literal). -/
inductive ChartType
  | Natal
  | ExternalNatal
  | Transit
  | Synastry
  | Composite
deriving DecidableEq, Repr

/-- The `double_chart_aspect_grid_type` literal: `"list"` or `"table"`. -/
inductive GridType
  | list
  | table
deriving DecidableEq, Repr

/-- The four classical elements used by the element balance calculator. -/
inductive Element
  | fire
  | earth
  | air
  | water
deriving DecidableEq, Repr

/-- The fields of an `AstrologicalSubject`/`AstrologicalSubjectModel` that
`KerykeionChartSVG` reads.  `pointSign` models `subject.get(name).sign_num`
for the celestial points: the sign index of the named (lower-cased) point;
sign indices are 0..11 by the point model's contract, hence `Fin 12`. -/
structure SubjectModel where
  name : String
  city : String
  lat : ℚ
  lng : ℚ
  pointSign : String → Fin 12
  year : ℕ
  month : ℕ
  day : ℕ
  hour : ℕ
  minute : ℕ
  zodiac_type : String
  sidereal_mode : String
  houses_system_identifier : String
  houses_system_name : String
  perspective_type : String
  moon_phase : Option String
  moon_phase_name : String
  degrees_between_s_m : ℚ
  iso_formatted_local_datetime : String
  first_house_abs_pos : ℚ
  seventh_house_abs_pos : ℚ

/-- A default subject, used only to model Python attribute accesses that the
source guards by chart type (they are never reached with the default). -/
def defaultSubject : SubjectModel where
  name := ""
  city := ""
  lat := 0
  lng := 0
  pointSign := fun _ => ⟨0, by decide⟩
  year := 0
  month := 0
  day := 0
  hour := 0
  minute := 0
  zodiac_type := ""
  sidereal_mode := ""
  houses_system_identifier := ""
  houses_system_name := ""
  perspective_type := ""
  moon_phase := none
  moon_phase_name := ""
  degrees_between_s_m := 0
  iso_formatted_local_datetime := ""
  first_house_abs_pos := 0
  seventh_house_abs_pos := 0

instance : Inhabited SubjectModel := ⟨defaultSubject⟩

/-- A `CompositeSubjectModel`: it exposes the same surface as a subject
(synthetic midpoint fields) plus the two component subjects. -/
structure CompositeModel extends SubjectModel where
  first_subject : SubjectModel
  second_subject : SubjectModel

instance : Inhabited CompositeModel :=
  ⟨{ defaultSubject with first_subject := defaultSubject, second_subject := defaultSubject }⟩

/-- The `first_obj` argument: either a plain subject or a composite model. -/
inductive FirstObj
  | subject (s : SubjectModel)
  | composite (c : CompositeModel)

/-- Duck-typed attribute access on `first_obj` (both Python classes expose
the subject surface). -/
def FirstObj.asSubject : FirstObj → SubjectModel
  | .subject s => s
  | .composite c => c.toSubjectModel

/-- Models the Python attribute accesses `self.user.first_subject` /
`.second_subject`, which the source only performs on Composite charts. -/
def FirstObj.asComposite : FirstObj → CompositeModel
  | .composite c => c
  | .subject _ => default

/-- One entry of the `celestial_points` settings list, restricted to the
fields this class reads. -/
structure CelestialPointSetting where
  name : String
  color : String
  element_points : ℚ
  related_zodiac_signs : List ℕ
  id : ℕ
deriving DecidableEq, Repr

instance : Inhabited CelestialPointSetting := ⟨{ name := "", color := "", element_points := 0, related_zodiac_signs := [], id := 0 }⟩

/-- One entry of the `aspects` settings list (fields read by the drawers). -/
structure AspectSetting where
  name : String
  color : String
  degree : ℕ
deriving DecidableEq, Repr

/-- One aspect record from the externally computed aspects list; only the
aspect-kind name is inspected by this class, the rest is passed through to
the opaque drawers. -/
structure AspectRecord where
  p1_name : String
  p2_name : String
  aspect : String
deriving DecidableEq, Repr

/-- A per-language string table (`language_settings[chart_language]`). -/
abbrev LangTable := List (String × String)

/-- Lookup in a language table (Python `dict` access, as an option). -/
def langLookup (t : LangTable) (k : String) : Option String :=
  (t.find? (fun p => p.1 = k)).map (·.2)

/-- Python `language_settings.get(key, default)`: total, with fallback. -/
def langGet (t : LangTable) (k d : String) : String :=
  (langLookup t k).getD d

/-- Errors raised during construction or template assembly:
`KerykeionException` cases from `__init__` plus Python `KeyError` from
direct dictionary indexing. -/
inductive ChartError
  | secondObjectRequired
  | firstObjectMustBeComposite
  | themeNotAvailable (theme : String)
  | keyError (k : String)
deriving DecidableEq, Repr

/-- Python `language_settings[key]`: direct indexing, raises `KeyError`
when the key is absent. -/
def langIndex (t : LangTable) (k : String) : Except ChartError String :=
  match langLookup t k with
  | some v => .ok v
  | none => .error (.keyError k)

/-! ### Element balance calculator
(`_calculate_elements_points_from_planets`, lines 406-463) -/

/-- `_PLANET_IN_ZODIAC_EXTRA_POINTS` (line 131). -/
def PLANET_IN_ZODIAC_EXTRA_POINTS : ℚ := 10

/-- The fixed `ZODIAC` table of the source (lines 417-430), in Aries..Pisces
order. -/
def ZODIAC : List (String × Element) :=
  [("Ari", .fire), ("Tau", .earth), ("Gem", .air), ("Can", .water),
   ("Leo", .fire), ("Vir", .earth), ("Lib", .air), ("Sco", .water),
   ("Sag", .fire), ("Cap", .earth), ("Aqu", .air), ("Pis", .water)]

/-- `ZODIAC[sign]["element"]`: the element of a sign index. -/
def zodiacElement (n : Fin 12) : Element :=
  (ZODIAC.get (Fin.cast (by decide) n)).2

/-- The four running element totals (`self.fire/earth/air/water`). -/
structure ElemState where
  fire : ℚ
  earth : ℚ
  air : ℚ
  water : ℚ
deriving DecidableEq, Repr

/-- Bucket accessor for stating which totals a step touches. -/
def ElemState.bucket (st : ElemState) : Element → ℚ
  | .fire => st.fire
  | .earth => st.earth
  | .air => st.air
  | .water => st.water

/-- The `extra_points` computation of the loop body (lines 446-450): start
from 0, and for each entry of `related_zodiac_signs` equal to the current
sign set it to the bonus constant; the whole loop is guarded by
`related_zodiac_signs != []`. -/
def extraPointsFor (related : List ℕ) (cz : ℕ) : ℚ :=
  if related ≠ [] then
    related.foldl (fun acc e => if e = cz then PLANET_IN_ZODIAC_EXTRA_POINTS else acc) 0
  else 0

/-- One iteration of the loop at lines 442-463: add the point's
`element_points` plus `extra_points` to the bucket selected by the
`ZODIAC` table at the point's sign. -/
def elementsStep (st : ElemState) (body : CelestialPointSetting) (sign : Fin 12) : ElemState :=
  let extra := extraPointsFor body.related_zodiac_signs sign.val
  match zodiacElement sign with
  | .fire => { st with fire := st.fire + body.element_points + extra }
  | .earth => { st with earth := st.earth + body.element_points + extra }
  | .air => { st with air := st.air + body.element_points + extra }
  | .water => { st with water := st.water + body.element_points + extra }

/-- `_calculate_elements_points_from_planets`: starting from the zero
totals set at lines 326-329, fold the loop body over the active points
(each paired with `user.get(name.lower()).sign_num`). -/
def calculateElementsPointsFromPlanets (user : FirstObj) (available : List CelestialPointSetting) : ElemState :=
  (available.map (fun b => (b, user.asSubject.pointSign b.name.toLower))).foldl
    (fun st p => elementsStep st p.1 p.2) ⟨0, 0, 0, 0⟩

/-- The `extra_points` loop is equivalent to a membership test. -/
theorem extraPointsFor_eq (related : List ℕ) (cz : ℕ) :
    extraPointsFor related cz = if cz ∈ related then PLANET_IN_ZODIAC_EXTRA_POINTS else 0 := by
  have aux : ∀ (l : List ℕ) (a : ℚ),
      l.foldl (fun acc e => if e = cz then PLANET_IN_ZODIAC_EXTRA_POINTS else acc) a
        = if cz ∈ l then PLANET_IN_ZODIAC_EXTRA_POINTS else a := by
    intro l
    induction l with
    | nil => intro a; simp
    | cons e es ih =>
      intro a
      by_cases he : e = cz
      · subst he
        simp [List.foldl_cons, ih]
      · simp only [List.foldl_cons, if_neg he, ih]
        have : (cz ∈ e :: es) ↔ (cz ∈ es) := by
          constructor
          · intro h
            cases h with
            | head => exact absurd rfl he
            | tail _ h => exact h
          · intro h; exact List.mem_cons_of_mem _ h
        rcases Classical.em (cz ∈ es) with h | h
        · rw [if_pos h, if_pos (this.mpr h)]
        · rw [if_neg h, if_neg (fun hc => h (this.mp hc))]
  unfold extraPointsFor
  cases l : related with
  | nil => simp
  | cons e es => simpa using aux (e :: es) 0

/-! ### Location-string truncation for the `top_left_1` slot
(`_create_template_dictionary`, lines 617-629).  Strings are modelled as
their character lists (Python `len`/slicing/`split` are per-character). -/

/-- Python `str.split(",")` at character level: always returns at least one
(possibly empty) segment; a separator ends the current segment. -/
def splitOnComma : List Char → List (List Char)
  | [] => [[]]
  | c :: cs =>
    if c = ',' then [] :: splitOnComma cs
    else
      match splitOnComma cs with
      | [] => [[c]]
      | s :: ss => (c :: s) :: ss

/-- The `"..."` suffix appended by the truncation rule. -/
def ellipsisChars : List Char := ['.', '.', '.']

/-- The `", "` separator inserted between first and last segment. -/
def commaSpaceChars : List Char := [',', ' ']

/-- The non-Composite `top_left_1` computation (lines 620-629): locations
over 35 characters are abbreviated using their first and last
comma-separated segments, or hard-truncated with an ellipsis. -/
def topLeftOneOfLocation (location : List Char) : List Char :=
  if 35 < location.length then
    let split_location := splitOnComma location
    if 1 < split_location.length then
      let combined := split_location.headD [] ++ commaSpaceChars ++ split_location.getLastD []
      if 35 < combined.length then combined.take 35 ++ ellipsisChars else combined
    else location.take 35 ++ ellipsisChars
  else location

theorem splitOnComma_ne_nil (l : List Char) : splitOnComma l ≠ [] := by
  cases l with
  | nil => simp [splitOnComma]
  | cons c cs =>
    unfold splitOnComma
    by_cases h : c = ','
    · simp [h]
    · simp only [if_neg h]
      cases splitOnComma cs <;> simp

/-- The code's branch guard `len(split_location) > 1` is exactly "the
location contains a comma". -/
theorem splitOnComma_length_gt_one_iff (l : List Char) :
    1 < (splitOnComma l).length ↔ ',' ∈ l := by
  induction l with
  | nil => simp [splitOnComma]
  | cons c cs ih =>
    unfold splitOnComma
    by_cases h : c = ','
    · subst h
      rw [if_pos rfl]
      simp only [List.length_cons, List.mem_cons]
      have hpos : 0 < (splitOnComma cs).length := List.length_pos.mpr (splitOnComma_ne_nil cs)
      constructor
      · intro _; simp
      · intro _; omega
    · simp only [if_neg h]
      cases hs : splitOnComma cs with
      | nil => exact absurd hs (splitOnComma_ne_nil cs)
      | cons s ss =>
        simp only [List.length_cons, List.mem_cons]
        rw [hs] at ih
        simp only [List.length_cons] at ih
        constructor
        · intro hlen
          exact Or.inr (ih.mp hlen)
        · intro hmem
          cases hmem with
          | inl hc => exact absurd hc.symm h
          | inr hm => exact ih.mpr hm

/-! ### Aspect line drawers
(`_draw_all_aspects_lines` lines 465-488 and
`_draw_all_transit_aspects_lines` lines 490-513; the two bodies are
identical).  `draw_aspect_line` from `charts_utils` is opaque: it receives
`r`, `ar`, the aspect record, the color, and the seventh-house degree. -/

/-- Python truthiness of the `Optional[str]` color from
`next((a["color"] for a in self.aspects_settings if a["name"] == aspect_name), None)`:
`None` and the empty string are falsy. -/
def colorTruthy : Option String → Bool
  | some c => c ≠ ""
  | none => false

/-- The resolved color of an aspect kind: the first settings entry with a
matching name. -/
def resolveAspectColor (aspects_settings : List AspectSetting) (kind : String) : Option String :=
  (aspects_settings.find? (fun a => a.name = kind)).map (·.color)

/-- `_draw_all_aspects_lines`: fold over the aspect list, appending one
chord per aspect whose resolved color is truthy. -/
def drawAllAspectsLines (draw_aspect_line : ℚ → ℚ → AspectRecord → String → ℚ → String)
    (r ar : ℚ) (seventh_house_degree_ut : ℚ)
    (aspects_settings : List AspectSetting) (aspects_list : List AspectRecord) : String :=
  aspects_list.foldl (fun out aspect =>
    let aspect_color := resolveAspectColor aspects_settings aspect.aspect
    if colorTruthy aspect_color then
      out ++ draw_aspect_line r ar aspect (aspect_color.getD "") seventh_house_degree_ut
    else out) ""

/-- `_draw_all_transit_aspects_lines`: textually identical loop. -/
def drawAllTransitAspectsLines (draw_aspect_line : ℚ → ℚ → AspectRecord → String → ℚ → String)
    (r ar : ℚ) (seventh_house_degree_ut : ℚ)
    (aspects_settings : List AspectSetting) (aspects_list : List AspectRecord) : String :=
  aspects_list.foldl (fun out aspect =>
    let aspect_color := resolveAspectColor aspects_settings aspect.aspect
    if colorTruthy aspect_color then
      out ++ draw_aspect_line r ar aspect (aspect_color.getD "") seventh_house_degree_ut
    else out) ""

/-! ### Class constants (lines 122-131) -/

def BASIC_CHART_VIEWBOX : String := "0 0 820 550.0"
def WIDE_CHART_VIEWBOX : String := "0 0 1200 546.0"
def TRANSIT_CHART_WITH_TABLE_VIWBOX : String := "0 0 960 546.0"
def DEFAULT_HEIGHT : ℕ := 550
def DEFAULT_FULL_WIDTH : ℕ := 1200
def DEFAULT_NATAL_WIDTH : ℕ := 820
def DEFAULT_FULL_WIDTH_WITH_TABLE : ℕ := 960

/-- The settings bundle produced by `parse_json_settings` (lines 366-379):
the language table already selected for `chart_language`, the chart color
table (modelled as a total map: the claims under check never exercise a
missing chart-color key), the celestial point list and the aspect list. -/
structure Settings where
  language_settings : LangTable
  chart_colors_settings : String → String
  planets_settings : List CelestialPointSetting
  aspects_settings : List AspectSetting

/-- The template slots assembled by `_create_template_dictionary` that the
claims read (all remaining slots are settings pass-throughs copied by the
loops at lines 662-673). -/
structure TemplateDict where
  color_style_tag : String
  chart_height : ℕ
  chart_width : ℕ
  viewbox : String
  transitRing : String
  degreeRing : String
  first_circle : String
  second_circle : String
  third_circle : String
  makeAspectGrid : String
  makeAspects : String
  stringTitle : String
  bottom_left_0 : String
  bottom_left_1 : String
  bottom_left_2 : String
  bottom_left_3 : String
  bottom_left_4 : String
  lunar_phase_rotate : ℚ
  lunar_phase_circle_center_x : ℚ
  lunar_phase_circle_radius : ℚ
  top_left_0 : String
  top_left_1 : String
  top_left_2 : String
  top_left_3 : String
  top_left_4 : String
  top_left_5 : String
  paper_color_0 : String
  paper_color_1 : String
  makeZodiac : String
  makeHousesGrid : String
  makeHouses : String
  makePlanets : String
  fire_string : String
  earth_string : String
  air_string : String
  water_string : String
  makePlanetGrid : String
deriving DecidableEq, Repr

/-- Opaque external collaborators: drawing helpers from `charts_utils` and
`draw_planets`, the aspects calculators, swisseph, datetime formatting,
theme CSS file contents and the XML template substitution.  Each field
receives the values the source passes to it; their outputs are
uninterpreted strings/numbers. -/
structure Collab where
  theme_css : String → String
  natal_relevant_aspects : FirstObj → List String → List AspectRecord
  synastry_relevant_aspects : FirstObj → FirstObj → List AspectRecord
  draw_transit_ring : ℚ → String → String → String
  draw_transit_ring_degree_steps : ℚ → ℚ → String
  draw_degree_ring : ℚ → ℚ → ℚ → String → String
  draw_first_circle : ℚ → String → ChartType → Option ℚ → String
  draw_second_circle : ℚ → String → String → ChartType → Option ℚ → String
  draw_third_circle : ℚ → String → String → ChartType → ℚ → String
  draw_transit_aspect_list : String → List AspectRecord → List CelestialPointSetting → List AspectSetting → String
  draw_transit_aspect_grid : String → List CelestialPointSetting → List AspectRecord → Option (ℕ × ℕ) → String
  draw_aspect_grid : String → List CelestialPointSetting → List AspectRecord → String
  draw_aspect_line : ℚ → ℚ → AspectRecord → String → ℚ → String
  get_ayanamsa_name : String → String
  calculate_moon_phase_chart_params : ℚ → ℚ → ℚ × ℚ × ℚ
  strftime_short : String → String
  strftime_with_tz : String → String
  convert_latitude_coordinate_to_string : ℚ → String → String → String
  convert_longitude_coordinate_to_string : ℚ → String → String → String
  draw_zodiac_slice : ℚ → ChartType → ℚ → ℕ → ℚ → String → String → String
  get_houses_list : SubjectModel → List ℚ
  draw_house_grid : List ℚ → Option (List ℚ) → ChartType → String → String → String
  draw_houses_cusps_and_text_number : ℚ → List ℚ → String → String → String → String → String → ℚ → ℚ → ChartType → Option (List ℚ) → Option String → String
  draw_planets_fragment : List String → List CelestialPointSetting → Option (List String) → ℚ → ℚ → ℚ → ChartType → ℚ → String
  draw_planet_grid : String → String → List String → ChartType → String → String → Option String → Option (List String) → String
  template_substitute : TemplateDict → String
  inline_css_variables_in_svg : String → String
  scourString : String → String

/-- The instance state a successful `__init__` leaves behind (the fields of
lines 133-166 that later rendering reads). -/
structure ChartState where
  chart_type : ChartType
  user : FirstObj
  t_user : Option SubjectModel
  available_planets_setting : List CelestialPointSetting
  aspects_list : List AspectRecord
  double_chart_aspect_grid_type : GridType
  height : ℕ
  width : ℕ
  location : String
  geolat : ℚ
  geolon : ℚ
  t_name : Option String
  main_radius : ℚ
  first_circle_radius : ℚ
  second_circle_radius : ℚ
  third_circle_radius : ℚ
  fire : ℚ
  earth : ℚ
  air : ℚ
  water : ℚ
  color_style_tag : String
  language_settings : LangTable
  chart_colors_settings : String → String
  planets_settings : List CelestialPointSetting
  aspects_settings : List AspectSetting

/-- Arguments of `__init__` that the embedded behaviour depends on.
`known_themes` stands for `get_args(KerykeionChartTheme)` (the literal
alternatives live outside `src/`); every theorem below holds for an
arbitrary such list. -/
structure InitArgs where
  first_obj : FirstObj
  chart_type : ChartType
  second_obj : Option SubjectModel
  theme : Option String
  double_chart_aspect_grid_type : GridType
  active_points : List String
  known_themes : List String

/-- The theme validation of lines 335-336: a non-`None` theme outside the
known literals raises; `known` stands for `get_args(KerykeionChartTheme)`. -/
def themeCheck (theme : Option String) (known : List String) : Except ChartError Unit :=
  match theme with
  | none => .ok ()
  | some t =>
    if known.contains t then .ok ()
    else .error (.themeNotAvailable t)

/-- `__init__` (lines 168-338), as a fallible construction of the instance
state.  Raises (`Except.error`) exactly where the source raises:
missing second object for Transit/Synastry (line 252), non-composite first
object for Composite (line 284), `KeyError` on the direct
`language_settings["transit_name"]` index for Transit (line 314), and an
unavailable theme (line 336).  The `is_active = True` write into the
settings entries (line 228) is dropped: no claim reads `is_active`. -/
def init (collab : Collab) (settings : Settings) (args : InitArgs) :
    Except ChartError ChartState := do
  let user := args.first_obj
  -- lines 223-230: filter the configured points by the active selection
  let available_planets_setting :=
    settings.planets_settings.filter (fun body => args.active_points.contains body.name)
  -- lines 242-286: aspects list and second subject, by chart type
  let (aspects_list, t_user) ←
    (match args.chart_type with
     | .Natal | .ExternalNatal =>
       Except.ok (collab.natal_relevant_aspects user args.active_points, (none : Option SubjectModel))
     | .Transit =>
       match args.second_obj with
       | none => Except.error .secondObjectRequired
       | some t => Except.ok (collab.synastry_relevant_aspects (.subject t) user, some t)
     | .Synastry =>
       match args.second_obj with
       | none => Except.error .secondObjectRequired
       | some t => Except.ok (collab.synastry_relevant_aspects user (.subject t), some t)
     | .Composite =>
       match args.first_obj with
       | .composite _ => Except.ok (collab.natal_relevant_aspects user args.active_points, none)
       | .subject _ => Except.error .firstObjectMustBeComposite)
  -- lines 291-298: screen size
  let height := DEFAULT_HEIGHT
  let width :=
    if args.chart_type = .Synastry ∨ args.chart_type = .Transit then DEFAULT_FULL_WIDTH
    else if args.double_chart_aspect_grid_type = .table ∧ args.chart_type = .Transit then
      DEFAULT_FULL_WIDTH_WITH_TABLE
    else DEFAULT_NATAL_WIDTH
  -- lines 300-314: location and coordinates
  let (location, geolat, geolon, t_name) ←
    (match args.chart_type with
     | .Natal | .ExternalNatal | .Synastry =>
       Except.ok (user.asSubject.city, user.asSubject.lat, user.asSubject.lng,
         (none : Option String))
     | .Composite =>
       -- `user.first_subject` / `user.second_subject`: reached only with a
       -- composite first object (guarded above); the fallback is dead code.
       let c := user.asComposite
       Except.ok ("", (c.first_subject.lat + c.second_subject.lat) / 2,
         (c.first_subject.lng + c.second_subject.lng) / 2, none)
     | .Transit => do
       -- `self.t_user` is set in the Transit branch above.
       let t := t_user.getD default
       let tn ← langIndex settings.language_settings "transit_name"
       Except.ok (t.city, t.lat, t.lng, some tn))
  -- lines 316-323: radii
  let main_radius : ℚ := 240
  let (first_circle_radius, second_circle_radius, third_circle_radius) : ℚ × ℚ × ℚ :=
    if args.chart_type = .ExternalNatal then (56, 92, 112) else (0, 36, 120)
  -- lines 325-332: element points
  let elems := calculateElementsPointsFromPlanets user available_planets_setting
  -- lines 334-338: theme validation and `set_up_theme`
  let _ ← themeCheck args.theme args.known_themes
  let color_style_tag :=
    match args.theme with
    | none => ""
    | some t => collab.theme_css t
  Except.ok
    { chart_type := args.chart_type
      user := user
      t_user := t_user
      available_planets_setting := available_planets_setting
      aspects_list := aspects_list
      double_chart_aspect_grid_type := args.double_chart_aspect_grid_type
      height := height
      width := width
      location := location
      geolat := geolat
      geolon := geolon
      t_name := t_name
      main_radius := main_radius
      first_circle_radius := first_circle_radius
      second_circle_radius := second_circle_radius
      third_circle_radius := third_circle_radius
      fire := elems.fire
      earth := elems.earth
      air := elems.air
      water := elems.water
      color_style_tag := color_style_tag
      language_settings := settings.language_settings
      chart_colors_settings := settings.chart_colors_settings
      planets_settings := settings.planets_settings
      aspects_settings := settings.aspects_settings }

/-! ### Template dictionary assembly
(`_create_template_dictionary`, lines 515-808).  The per-planet, per-sign
and per-orb color pass-through loops (lines 662-673) copy settings values
into numbered slots and are read by no claim; they are omitted from the
slot structure. -/

/-- The chart-type string as Python sees it (`self.chart_type` is one of
these literals). -/
def chartTypeToString : ChartType → String
  | .Natal => "Natal"
  | .ExternalNatal => "ExternalNatal"
  | .Transit => "Transit"
  | .Synastry => "Synastry"
  | .Composite => "Composite"

/-- Python `f"{n:02d}"` for the hour/minute slots. -/
def pad2 (n : ℕ) : String :=
  if n < 10 then "0" ++ toString n else toString n

/-- `get_args(Sign)`: the twelve sign literals in fixed order. -/
def SIGNS : List String :=
  ["Ari", "Tau", "Gem", "Can", "Leo", "Vir", "Lib", "Sco", "Sag", "Cap", "Aqu", "Pis"]

/-- `_draw_zodiac_circle_slices` (lines 381-404). -/
def drawZodiacCircleSlices (collab : Collab) (s : ChartState) (r : ℚ) : String :=
  (List.range 12).foldl (fun output i =>
    output ++ collab.draw_zodiac_slice s.first_circle_radius s.chart_type
      s.user.asSubject.seventh_house_abs_pos i r
      ("fill:" ++ s.chart_colors_settings ("zodiac_bg_" ++ toString i) ++ "; fill-opacity: 0.5;")
      (SIGNS.getD i "")) ""

/-- Lower-cased active point names (`available_celestial_points_names`,
lines 233-235; recomputed here from the stored settings selection). -/
def availableNames (s : ChartState) : List String :=
  s.available_planets_setting.map (fun b => b.name.toLower)

/-- `self.planets_settings[i]["color"]` (lines 696-699 and 719-722): list
indexing into the full settings list; real settings always carry at least
16 points, so the default is never consulted by the claims. -/
def planetsColor (l : List CelestialPointSetting) (i : ℕ) : String :=
  (l.getD i default).color

/-- `int(round(100 * x / total))` (lines 754-757) over exact rationals.
Lean's total division returns 0 for `total = 0` where Python raises
`ZeroDivisionError`; no claim below evaluates that case (the spec flags it
as a latent fault). -/
def percentageOf (x total : ℚ) : ℤ :=
  round (100 * x / total)

/-- `_create_template_dictionary` (lines 515-808).  `Except`-valued: a
`KeyError` from any direct `language_settings[...]` index aborts assembly
exactly where the source raises. -/
def createTemplateDictionary (collab : Collab) (s : ChartState) :
    Except ChartError TemplateDict := do
  let lang := s.language_settings
  let user := s.user.asSubject
  let t := s.t_user.getD default
  let comp := s.user.asComposite
  -- lines 535-541: viewbox
  let viewbox :=
    if s.chart_type = .Natal ∨ s.chart_type = .ExternalNatal ∨ s.chart_type = .Composite then
      BASIC_CHART_VIEWBOX
    else if s.double_chart_aspect_grid_type = .table ∧ s.chart_type = .Transit then
      TRANSIT_CHART_WITH_TABLE_VIWBOX
    else WIDE_CHART_VIEWBOX
  -- lines 543-571: rings, circles, aspect grid and aspect lines
  let (transitRing, degreeRing, first_circle, second_circle, third_circle, makeAspectGrid, makeAspects) :=
    if s.chart_type = .Transit ∨ s.chart_type = .Synastry then
      (collab.draw_transit_ring s.main_radius (s.chart_colors_settings "paper_1")
         (s.chart_colors_settings "zodiac_transit_ring_3"),
       collab.draw_transit_ring_degree_steps s.main_radius user.seventh_house_abs_pos,
       collab.draw_first_circle s.main_radius (s.chart_colors_settings "zodiac_transit_ring_2")
         s.chart_type none,
       collab.draw_second_circle s.main_radius (s.chart_colors_settings "zodiac_transit_ring_1")
         (s.chart_colors_settings "paper_1") s.chart_type none,
       collab.draw_third_circle s.main_radius (s.chart_colors_settings "zodiac_transit_ring_0")
         (s.chart_colors_settings "paper_1") s.chart_type s.third_circle_radius,
       (if s.double_chart_aspect_grid_type = .list then
          let title :=
            if s.chart_type = .Synastry then langGet lang "couple_aspects" "Couple Aspects"
            else langGet lang "transit_aspects" "Transit Aspects"
          collab.draw_transit_aspect_list title s.aspects_list s.planets_settings s.aspects_settings
        else
          collab.draw_transit_aspect_grid (s.chart_colors_settings "paper_0")
            s.available_planets_setting s.aspects_list (some (550, 450))),
       drawAllTransitAspectsLines collab.draw_aspect_line s.main_radius (s.main_radius - 160)
         user.seventh_house_abs_pos s.aspects_settings s.aspects_list)
    else
      ("",
       collab.draw_degree_ring s.main_radius s.first_circle_radius user.seventh_house_abs_pos
         (s.chart_colors_settings "paper_0"),
       collab.draw_first_circle s.main_radius (s.chart_colors_settings "zodiac_radix_ring_2")
         s.chart_type (some s.first_circle_radius),
       collab.draw_second_circle s.main_radius (s.chart_colors_settings "zodiac_radix_ring_1")
         (s.chart_colors_settings "paper_1") s.chart_type (some s.second_circle_radius),
       collab.draw_third_circle s.main_radius (s.chart_colors_settings "zodiac_radix_ring_0")
         (s.chart_colors_settings "paper_1") s.chart_type s.third_circle_radius,
       collab.draw_aspect_grid (s.chart_colors_settings "paper_0") s.available_planets_setting
         s.aspects_list,
       drawAllAspectsLines collab.draw_aspect_line s.main_radius
         (s.main_radius - s.third_circle_radius) user.seventh_house_abs_pos
         s.aspects_settings s.aspects_list)
  -- lines 573-581: chart title
  let stringTitle ←
    (match s.chart_type with
     | .Synastry => do
       let aw ← langIndex lang "and_word"
       Except.ok (user.name ++ " " ++ aw ++ " " ++ t.name)
     | .Transit => do
       let tr ← langIndex lang "transits"
       Except.ok (tr ++ " " ++ toString t.day ++ "/" ++ toString t.month ++ "/" ++ toString t.year)
     | .Natal | .ExternalNatal => Except.ok user.name
     | .Composite => do
       let aw ← langIndex lang "and_word"
       Except.ok (comp.first_subject.name ++ " " ++ aw ++ " " ++ comp.second_subject.name))
  -- lines 583-592: zodiac info and bottom-left metadata
  let zodiac_info :=
    if user.zodiac_type = "Tropic" then
      langGet lang "zodiac" "Zodiac" ++ ": " ++ langGet lang "tropical" "Tropical"
    else
      langGet lang "ayanamsa" "Ayanamsa" ++ ": "
        ++ collab.get_ayanamsa_name ("SIDM_" ++ user.sidereal_mode)
  let bottom_left_0 :=
    langGet lang ("houses_system_" ++ user.houses_system_identifier) user.houses_system_name
      ++ " " ++ langGet lang "houses" "Houses"
  let bottom_left_1 := zodiac_info
  -- lines 594-605
  let (bottom_left_2, bottom_left_3, bottom_left_4) :=
    match s.chart_type with
    | .Natal | .ExternalNatal | .Synastry =>
      (langGet lang "lunar_phase" "Lunar Phase" ++ " " ++ (langGet lang "day" "Day").toLower
         ++ ": " ++ user.moon_phase.getD "",
       langGet lang "lunar_phase" "Lunar Phase" ++ ": "
         ++ langGet lang ((user.moon_phase_name.toLower).replace " " "_") user.moon_phase_name,
       langGet lang ((user.perspective_type.toLower).replace " " "_") user.perspective_type)
    | .Transit =>
      (langGet lang "lunar_phase" "Lunar Phase" ++ ": " ++ langGet lang "day" "Day" ++ " "
         ++ t.moon_phase.getD "",
       langGet lang "lunar_phase" "Lunar Phase" ++ ": " ++ t.moon_phase_name,
       langGet lang ((t.perspective_type.toLower).replace " " "_") t.perspective_type)
    | .Composite =>
      (comp.first_subject.perspective_type,
       langGet lang "composite_chart" "Composite Chart" ++ " - "
         ++ langGet lang "midpoints" "Midpoints",
       "")
  -- lines 607-615: moon phase parameters
  let moon := collab.calculate_moon_phase_chart_params user.degrees_between_s_m s.geolat
  -- lines 617-629: top_left_1
  let top_left_1 :=
    if s.chart_type = .Composite then
      collab.strftime_short comp.first_subject.iso_formatted_local_datetime
    else (topLeftOneOfLocation s.location.data).asString
  -- lines 631-637: top_left_0
  let top_left_0 ←
    (match s.chart_type with
     | .Synastry | .Transit => Except.ok (user.name ++ ":")
     | .Natal | .ExternalNatal => do
       let info ← langIndex lang "info"
       Except.ok (info ++ ":")
     | .Composite => Except.ok comp.first_subject.name)
  -- lines 639-655: top_left_3/4/5
  let (top_left_3, top_left_4, top_left_5) ←
    (match s.chart_type with
     | .Synastry =>
       Except.ok (t.name ++ ": ", t.city,
         toString t.year ++ "-" ++ toString t.month ++ "-" ++ toString t.day ++ " "
           ++ pad2 t.hour ++ ":" ++ pad2 t.minute)
     | .Composite => do
       let nl ← langIndex lang "north_letter"
       let sl ← langIndex lang "south_letter"
       let el ← langIndex lang "east_letter"
       let wl ← langIndex lang "west_letter"
       let latitude_string :=
         collab.convert_latitude_coordinate_to_string comp.second_subject.lat nl sl
       let longitude_string :=
         collab.convert_longitude_coordinate_to_string comp.second_subject.lng el wl
       Except.ok (comp.second_subject.name,
         collab.strftime_short comp.second_subject.iso_formatted_local_datetime,
         latitude_string ++ " / " ++ longitude_string)
     | _ => do
       let n ← langIndex lang "north"
       let so ← langIndex lang "south"
       let e ← langIndex lang "east"
       let w ← langIndex lang "west"
       let latitude_string := collab.convert_latitude_coordinate_to_string s.geolat n so
       let longitude_string := collab.convert_longitude_coordinate_to_string s.geolon e w
       let la ← langIndex lang "latitude"
       let lo ← langIndex lang "longitude"
       let ty ← langIndex lang "type"
       Except.ok (la ++ ": " ++ latitude_string, lo ++ ": " ++ longitude_string,
         ty ++ ": " ++ langGet lang (chartTypeToString s.chart_type) (chartTypeToString s.chart_type)))
  -- lines 658-660: paper colors
  let paper_color_0 := s.chart_colors_settings "paper_0"
  let paper_color_1 := s.chart_colors_settings "paper_1"
  -- line 676: zodiac wheel
  let makeZodiac := drawZodiacCircleSlices collab s s.main_radius
  -- lines 678-726: houses grid and cusps
  let first_subject_houses_list := collab.get_houses_list user
  let cusp ← langIndex lang "cusp"
  let (makeHousesGrid, makeHouses) :=
    if s.chart_type = .Transit ∨ s.chart_type = .Synastry then
      let second_subject_houses_list := collab.get_houses_list t
      (collab.draw_house_grid first_subject_houses_list (some second_subject_houses_list)
         s.chart_type (s.chart_colors_settings "paper_0") cusp,
       collab.draw_houses_cusps_and_text_number s.main_radius first_subject_houses_list
         (s.chart_colors_settings "houses_radix_line")
         (planetsColor s.planets_settings 12) (planetsColor s.planets_settings 13)
         (planetsColor s.planets_settings 14) (planetsColor s.planets_settings 15)
         s.first_circle_radius s.third_circle_radius s.chart_type
         (some second_subject_houses_list)
         (some (s.chart_colors_settings "houses_transit_line")))
    else
      (collab.draw_house_grid first_subject_houses_list none s.chart_type
         (s.chart_colors_settings "paper_0") cusp,
       collab.draw_houses_cusps_and_text_number s.main_radius first_subject_houses_list
         (s.chart_colors_settings "houses_radix_line")
         (planetsColor s.planets_settings 12) (planetsColor s.planets_settings 13)
         (planetsColor s.planets_settings 14) (planetsColor s.planets_settings 15)
         s.first_circle_radius s.third_circle_radius s.chart_type none none)
  -- lines 728-749: planets
  let makePlanets :=
    if s.chart_type = .Transit ∨ s.chart_type = .Synastry then
      collab.draw_planets_fragment (availableNames s) s.available_planets_setting
        (some (availableNames s)) s.main_radius user.first_house_abs_pos
        user.seventh_house_abs_pos s.chart_type s.third_circle_radius
    else
      collab.draw_planets_fragment (availableNames s) s.available_planets_setting none
        s.main_radius user.first_house_abs_pos user.seventh_house_abs_pos s.chart_type
        s.third_circle_radius
  -- lines 751-762: element percentage strings
  let total := s.fire + s.water + s.earth + s.air
  let fire_percentage := percentageOf s.fire total
  let earth_percentage := percentageOf s.earth total
  let air_percentage := percentageOf s.air total
  let water_percentage := percentageOf s.water total
  let fireLabel ← langIndex lang "fire"
  let earthLabel ← langIndex lang "earth"
  let airLabel ← langIndex lang "air"
  let waterLabel ← langIndex lang "water"
  let fire_string := fireLabel ++ " " ++ toString fire_percentage ++ "%"
  let earth_string := earthLabel ++ " " ++ toString earth_percentage ++ "%"
  let air_string := airLabel ++ " " ++ toString air_percentage ++ "%"
  let water_string := waterLabel ++ " " ++ toString water_percentage ++ "%"
  -- lines 764-794: planet grid
  let makePlanetGrid ←
    (if s.chart_type = .Transit ∨ s.chart_type = .Synastry then do
       let second_subject_table_name ←
         if s.chart_type = .Transit then langIndex lang "transit_name"
         else Except.ok t.name
       let title ← langIndex lang "planets_and_house"
       let cpl ← langIndex lang "celestial_points"
       Except.ok (collab.draw_planet_grid title user.name (availableNames s) s.chart_type
         (s.chart_colors_settings "paper_0") cpl (some second_subject_table_name)
         (some (availableNames s)))
     else do
       let subject_name ←
         if s.chart_type = .Composite then do
           let aw ← langIndex lang "and_word"
           Except.ok (comp.first_subject.name ++ " " ++ aw ++ " " ++ comp.second_subject.name)
         else Except.ok user.name
       let title ← langIndex lang "planets_and_house"
       let cpl ← langIndex lang "celestial_points"
       Except.ok (collab.draw_planet_grid title subject_name (availableNames s) s.chart_type
         (s.chart_colors_settings "paper_0") cpl none none))
  -- lines 796-806: top_left_2
  let top_left_2 ←
    (match s.chart_type with
     | .Composite => do
       let nl ← langIndex lang "north_letter"
       let sl ← langIndex lang "south_letter"
       let el ← langIndex lang "east_letter"
       let wl ← langIndex lang "west_letter"
       let latitude := collab.convert_latitude_coordinate_to_string comp.first_subject.lat nl sl
       let longitude := collab.convert_longitude_coordinate_to_string comp.first_subject.lng el wl
       Except.ok (latitude ++ " " ++ longitude)
     | _ => Except.ok (collab.strftime_with_tz user.iso_formatted_local_datetime))
  Except.ok
    { color_style_tag := s.color_style_tag
      chart_height := s.height
      chart_width := s.width
      viewbox := viewbox
      transitRing := transitRing
      degreeRing := degreeRing
      first_circle := first_circle
      second_circle := second_circle
      third_circle := third_circle
      makeAspectGrid := makeAspectGrid
      makeAspects := makeAspects
      stringTitle := stringTitle
      bottom_left_0 := bottom_left_0
      bottom_left_1 := bottom_left_1
      bottom_left_2 := bottom_left_2
      bottom_left_3 := bottom_left_3
      bottom_left_4 := bottom_left_4
      lunar_phase_rotate := moon.1
      lunar_phase_circle_center_x := moon.2.1
      lunar_phase_circle_radius := moon.2.2
      top_left_0 := top_left_0
      top_left_1 := top_left_1
      top_left_2 := top_left_2
      top_left_3 := top_left_3
      top_left_4 := top_left_4
      top_left_5 := top_left_5
      paper_color_0 := paper_color_0
      paper_color_1 := paper_color_1
      makeZodiac := makeZodiac
      makeHousesGrid := makeHousesGrid
      makeHouses := makeHouses
      makePlanets := makePlanets
      fire_string := fire_string
      earth_string := earth_string
      air_string := air_string
      water_string := water_string
      makePlanetGrid := makePlanetGrid }

/-! ### Full render (`makeTemplate`, lines 810-848).  Imperative field
writes would show up as a changed state; the method performs none, so the
embedding threads the instance state through unchanged.  The template file
read plus `Template(...).substitute(td)` is the opaque
`template_substitute` collaborator, fed the printed slot map. -/

/-- Python `template.replace('\x22', \x7bsingle quote\x7d)`: swap every double
quote for a single quote (single-character replace as a character map). -/
def replaceDoubleQuotes (t : String) : String :=
  t.map (fun c => if c = Char.ofNat 34 then Char.ofNat 39 else c)

/-- The minify post-processing chain of line 843 after `scourString`. -/
def minifyChain (t : String) : String :=
  ((((replaceDoubleQuotes t).replace "\n" "").replace "\t" "").replace "    " "").replace "  " ""

/-- `makeTemplate(minify, remove_css_variables)`: assemble the slot map,
substitute it into the template, assemble once more (the redundant call at
line 837, whose result is discarded), post-process, and return the string
together with the (unchanged) instance state. -/
def makeTemplate (collab : Collab) (s : ChartState) (minify remove_css_variables : Bool) :
    Except ChartError (String × ChartState) := do
  let td ← createTemplateDictionary collab s
  let template := collab.template_substitute td
  let _ ← createTemplateDictionary collab s
  let template :=
    if remove_css_variables then collab.inline_css_variables_in_svg template else template
  let template :=
    if minify then minifyChain (collab.scourString template)
    else replaceDoubleQuotes template
  Except.ok (template, s)

/-! ## Claims -/

/-- C1: for every active point, the element calculation adds the point's
configured `element_points`, plus exactly 10 extra points when the point's
current sign index occurs in its `related_zodiac_signs` list, into exactly
the bucket selected by the fixed 12-entry Aries..Pisces table
(Aries/Leo/Sagittarius to fire, Taurus/Virgo/Capricorn to earth,
Gemini/Libra/Aquarius to air, Cancer/Scorpio/Pisces to water); no other
bucket changes for that point. -/
theorem elements_step_adds_to_single_bucket (st : ElemState) (body : CelestialPointSetting)
    (sign : Fin 12) :
    ((elementsStep st body sign).bucket (zodiacElement sign)
        = st.bucket (zodiacElement sign) + body.element_points
          + (if sign.val ∈ body.related_zodiac_signs then (10 : ℚ) else 0))
    ∧ (∀ e : Element, e ≠ zodiacElement sign →
        (elementsStep st body sign).bucket e = st.bucket e)
    ∧ (zodiacElement 0 = .fire ∧ zodiacElement 4 = .fire ∧ zodiacElement 8 = .fire
       ∧ zodiacElement 1 = .earth ∧ zodiacElement 5 = .earth ∧ zodiacElement 9 = .earth
       ∧ zodiacElement 2 = .air ∧ zodiacElement 6 = .air ∧ zodiacElement 10 = .air
       ∧ zodiacElement 3 = .water ∧ zodiacElement 7 = .water ∧ zodiacElement 11 = .water) := by
  refine ⟨?_, ?_, by decide⟩
  · unfold elementsStep
    cases h : zodiacElement sign <;>
      simp [ElemState.bucket, h, extraPointsFor_eq, PLANET_IN_ZODIAC_EXTRA_POINTS, add_assoc]
  · intro e he
    unfold elementsStep
    cases h : zodiacElement sign <;> cases e <;> simp_all [ElemState.bucket]

/-- Witness for C1: the Sun (weight 40, ruling sign Leo = 4) in Leo adds
40 + 10 to fire and leaves earth untouched. -/
theorem elements_step_adds_to_single_bucket_witness :
    (elementsStep ⟨1, 2, 3, 4⟩ ⟨"Sun", "#000", 40, [4], 0⟩ (4 : Fin 12)).bucket Element.fire
        = (ElemState.mk 1 2 3 4).bucket Element.fire + 40 + 10
    ∧ (elementsStep ⟨1, 2, 3, 4⟩ ⟨"Sun", "#000", 40, [4], 0⟩ (4 : Fin 12)).bucket Element.earth
        = (ElemState.mk 1 2 3 4).bucket Element.earth := by
  have h := elements_step_adds_to_single_bucket ⟨1, 2, 3, 4⟩ ⟨"Sun", "#000", 40, [4], 0⟩ (4 : Fin 12)
  constructor
  · have h1 := h.1
    rw [show zodiacElement (4 : Fin 12) = Element.fire from by decide] at h1
    simpa using h1
  · exact h.2.1 Element.earth (by decide)

/-- Concatenation of a list of SVG fragments, for stating what the aspect
drawers emit. -/
def joinStrings : List String → String
  | [] => ""
  | s :: rest => s ++ joinStrings rest

theorem foldl_filtered_append (p : AspectRecord → Bool) (q : AspectRecord → String)
    (aspects : List AspectRecord) :
    ∀ init : String,
      aspects.foldl (fun out a => if p a then out ++ q a else out) init
        = init ++ joinStrings ((aspects.filter p).map q) := by
  induction aspects with
  | nil => intro init; simp [joinStrings]
  | cons a as ih =>
    intro init
    rw [List.foldl_cons, List.filter_cons]
    by_cases hpa : p a
    · rw [if_pos hpa, if_pos hpa, List.map_cons, ih (init ++ q a), joinStrings,
        String.append_assoc]
    · rw [if_neg hpa, if_neg hpa, ih init]

/-- C3 counterexample: an aspect kind that has a configured settings entry
whose color is the empty string is dropped by the drawer (Python string
truthiness), so "every aspect whose kind does have a configured color
emits exactly one chord" fails: the output is empty, not one chord. -/
theorem aspect_with_empty_color_not_drawn :
    drawAllAspectsLines (fun _ _ _ _ _ => "CHORD") 240 80 0
        [⟨"conjunction", "", 0⟩] [⟨"Sun", "Moon", "conjunction"⟩] = ""
    ∧ resolveAspectColor [⟨"conjunction", "", 0⟩] "conjunction" = some ""
    ∧ ("" : String) ≠ "CHORD" := by
  refine ⟨by decide, by decide, by decide⟩

/-- C3 (amended): both aspect-line drawers emit, in list order, exactly one
chord per aspect whose resolved color is truthy (a configured, non-empty
color string); aspects with no matching settings entry, or with an empty
configured color, are silently skipped. -/
theorem aspect_lines_draw_colored_subset
    (draw : ℚ → ℚ → AspectRecord → String → ℚ → String) (r ar sh : ℚ)
    (settings : List AspectSetting) (aspects : List AspectRecord) :
    drawAllAspectsLines draw r ar sh settings aspects
      = joinStrings ((aspects.filter
            (fun a => colorTruthy (resolveAspectColor settings a.aspect))).map
          (fun a => draw r ar a ((resolveAspectColor settings a.aspect).getD "") sh))
    ∧ drawAllTransitAspectsLines draw r ar sh settings aspects
      = joinStrings ((aspects.filter
            (fun a => colorTruthy (resolveAspectColor settings a.aspect))).map
          (fun a => draw r ar a ((resolveAspectColor settings a.aspect).getD "") sh)) := by
  constructor
  · unfold drawAllAspectsLines
    simpa using foldl_filtered_append
      (fun a => colorTruthy (resolveAspectColor settings a.aspect))
      (fun a => draw r ar a ((resolveAspectColor settings a.aspect).getD "") sh) aspects ""
  · unfold drawAllTransitAspectsLines
    simpa using foldl_filtered_append
      (fun a => colorTruthy (resolveAspectColor settings a.aspect))
      (fun a => draw r ar a ((resolveAspectColor settings a.aspect).getD "") sh) aspects ""

/-! ### Inversion helpers -/

theorem except_bind_ok {α β : Type} {e : Except ChartError α} {f : α → Except ChartError β}
    {b : β} : (e >>= f) = .ok b ↔ ∃ a, e = .ok a ∧ f a = .ok b := by
  cases e <;> simp [Bind.bind, Except.bind]

/-- Everything a successful `init` determines about the resulting state. -/
theorem init_ok_fields (collab : Collab) (settings : Settings) (args : InitArgs)
    (s : ChartState) (h : init collab settings args = .ok s) :
    s.chart_type = args.chart_type
    ∧ s.user = args.first_obj
    ∧ s.language_settings = settings.language_settings
    ∧ s.double_chart_aspect_grid_type = args.double_chart_aspect_grid_type
    ∧ s.available_planets_setting
        = settings.planets_settings.filter (fun body => args.active_points.contains body.name)
    ∧ s.height = DEFAULT_HEIGHT
    ∧ s.width
        = (if args.chart_type = .Synastry ∨ args.chart_type = .Transit then DEFAULT_FULL_WIDTH
           else if args.double_chart_aspect_grid_type = .table ∧ args.chart_type = .Transit then
             DEFAULT_FULL_WIDTH_WITH_TABLE
           else DEFAULT_NATAL_WIDTH)
    ∧ s.main_radius = 240
    ∧ (s.first_circle_radius, s.second_circle_radius, s.third_circle_radius)
        = (if args.chart_type = .ExternalNatal then ((56 : ℚ), (92 : ℚ), (112 : ℚ))
           else (0, 36, 120))
    ∧ ElemState.mk s.fire s.earth s.air s.water
        = calculateElementsPointsFromPlanets args.first_obj
            (settings.planets_settings.filter (fun body => args.active_points.contains body.name))
    ∧ ((args.chart_type = .Natal ∨ args.chart_type = .ExternalNatal
          ∨ args.chart_type = .Synastry) →
        s.location = args.first_obj.asSubject.city
        ∧ s.geolat = args.first_obj.asSubject.lat
        ∧ s.geolon = args.first_obj.asSubject.lng)
    ∧ (args.chart_type = .Composite →
        s.location = ""
        ∧ s.geolat = (args.first_obj.asComposite.first_subject.lat
            + args.first_obj.asComposite.second_subject.lat) / 2
        ∧ s.geolon = (args.first_obj.asComposite.first_subject.lng
            + args.first_obj.asComposite.second_subject.lng) / 2)
    ∧ (args.chart_type = .Transit →
        s.t_user = args.second_obj
        ∧ ∀ t, args.second_obj = some t →
            s.location = t.city ∧ s.geolat = t.lat ∧ s.geolon = t.lng) := by
  cases hct : args.chart_type
  case Natal | ExternalNatal =>
    cases hth : themeCheck args.theme args.known_themes with
    | error e => simp [init, hct, hth, Bind.bind, Except.bind] at h
    | ok u =>
      simp only [init, hct, hth, Bind.bind, Except.bind] at h
      rw [Except.ok.injEq] at h
      subst h
      simp [hct]
  case Synastry =>
    cases hso : args.second_obj with
    | none => simp [init, hct, hso, Bind.bind, Except.bind] at h
    | some t =>
      cases hth : themeCheck args.theme args.known_themes with
      | error e => simp [init, hct, hso, hth, Bind.bind, Except.bind] at h
      | ok u =>
        simp only [init, hct, hso, hth, Bind.bind, Except.bind] at h
        rw [Except.ok.injEq] at h
        subst h
        simp [hct]
  case Composite =>
    cases hfo : args.first_obj with
    | subject sub => simp [init, hct, hfo, Bind.bind, Except.bind] at h
    | composite c =>
      cases hth : themeCheck args.theme args.known_themes with
      | error e => simp [init, hct, hfo, hth, Bind.bind, Except.bind] at h
      | ok u =>
        simp only [init, hct, hfo, hth, Bind.bind, Except.bind] at h
        rw [Except.ok.injEq] at h
        subst h
        simp [hct, hfo, FirstObj.asComposite]
  case Transit =>
    cases hso : args.second_obj with
    | none => simp [init, hct, hso, Bind.bind, Except.bind] at h
    | some t =>
      cases hlk : langIndex settings.language_settings "transit_name" with
      | error e => simp [init, hct, hso, hlk, Bind.bind, Except.bind] at h
      | ok tn =>
        cases hth : themeCheck args.theme args.known_themes with
        | error e => simp [init, hct, hso, hlk, hth, Bind.bind, Except.bind] at h
        | ok u =>
          simp only [init, hct, hso, hlk, hth, Bind.bind, Except.bind] at h
          rw [Except.ok.injEq] at h
          subst h
          simp [hct, hso]

/-! ### Concrete fixtures (used by witnesses and counterexamples) -/

/-- A concrete collaborator bundle with deterministic outputs. -/
def collabX : Collab where
  theme_css := fun _ => "THEME-CSS"
  natal_relevant_aspects := fun _ _ => [⟨"Sun", "Moon", "conjunction"⟩]
  synastry_relevant_aspects := fun _ _ => [⟨"Sun", "Moon", "square"⟩]
  draw_transit_ring := fun _ _ _ => ""
  draw_transit_ring_degree_steps := fun _ _ => ""
  draw_degree_ring := fun _ _ _ _ => ""
  draw_first_circle := fun _ _ _ _ => ""
  draw_second_circle := fun _ _ _ _ _ => ""
  draw_third_circle := fun _ _ _ _ _ => ""
  draw_transit_aspect_list := fun _ _ _ _ => ""
  draw_transit_aspect_grid := fun _ _ _ _ => ""
  draw_aspect_grid := fun _ _ _ => ""
  draw_aspect_line := fun _ _ _ _ _ => "CH"
  get_ayanamsa_name := fun _ => "AY"
  calculate_moon_phase_chart_params := fun _ _ => (0, 20, 10)
  strftime_short := fun _ => "1940-10-09 18:30"
  strftime_with_tz := fun _ => "1940-10-09 18:30 [+01:00]"
  convert_latitude_coordinate_to_string := fun _ _ _ => "53N24"
  convert_longitude_coordinate_to_string := fun _ _ _ => "2W58"
  draw_zodiac_slice := fun _ _ _ _ _ _ _ => ""
  get_houses_list := fun _ => []
  draw_house_grid := fun _ _ _ _ _ => ""
  draw_houses_cusps_and_text_number := fun _ _ _ _ _ _ _ _ _ _ _ _ => ""
  draw_planets_fragment := fun _ _ _ _ _ _ _ _ => ""
  draw_planet_grid := fun _ _ _ _ _ _ _ _ => ""
  template_substitute := fun td => td.stringTitle ++ "|" ++ td.top_left_1 ++ "|" ++ td.fire_string
  inline_css_variables_in_svg := fun t => t
  scourString := fun t => t

def subjectA : SubjectModel :=
  { defaultSubject with
      name := "John"
      city := "Liverpool"
      lat := 53
      lng := -3
      pointSign := fun _ => (4 : Fin 12)
      year := 1940
      month := 10
      day := 9
      hour := 18
      minute := 30
      zodiac_type := "Tropic"
      houses_system_identifier := "P"
      houses_system_name := "Placidus"
      perspective_type := "Apparent Geocentric"
      moon_phase := some "10"
      moon_phase_name := "Waxing Crescent"
      iso_formatted_local_datetime := "1940-10-09T18:30:00+01:00" }

def subjectB : SubjectModel :=
  { subjectA with
      name := "Paul", city := "London", lat := 51, lng := 0, pointSign := fun _ => (1 : Fin 12) }

def compositeAB : CompositeModel :=
  { subjectA with
      name := "John and Paul", first_subject := subjectA, second_subject := subjectB }

def sunSetting : CelestialPointSetting :=
  { name := "Sun", color := "#f00", element_points := 40, related_zodiac_signs := [4], id := 0 }

/-- A language table holding every key the assembly indexes directly. -/
def langEN : LangTable :=
  [("transit_name", "Transit"), ("info", "Info"), ("north", "North"), ("south", "South"),
   ("east", "East"), ("west", "West"), ("latitude", "Latitude"), ("longitude", "Longitude"),
   ("type", "Type"), ("cusp", "Cusp"), ("fire", "Fire"), ("earth", "Earth"), ("air", "Air"),
   ("water", "Water"), ("planets_and_house", "Planets and Houses"),
   ("celestial_points", "Celestial Points"), ("transits", "Transits"), ("and_word", "and")]

def settingsEN : Settings where
  language_settings := langEN
  chart_colors_settings := fun _ => "#fff"
  planets_settings := [sunSetting]
  aspects_settings := [⟨"conjunction", "#000", 0⟩]

def settingsEmptyLang : Settings := { settingsEN with language_settings := [] }

/-- Only the directly indexed keys a Natal assembly needs: every
`.get`-style label is left to its English fallback. -/
def langMinimalNatal : LangTable :=
  [("info", "Info"), ("north", "North"), ("south", "South"), ("east", "East"), ("west", "West"),
   ("latitude", "Latitude"), ("longitude", "Longitude"), ("type", "Type"), ("cusp", "Cusp"),
   ("fire", "Fire"), ("earth", "Earth"), ("air", "Air"), ("water", "Water"),
   ("planets_and_house", "Planets and Houses"), ("celestial_points", "Celestial Points")]

def settingsMinimalNatal : Settings := { settingsEN with language_settings := langMinimalNatal }

def KNOWN_THEMES : List String := ["classic", "dark", "dark-high-contrast", "light"]

def argsNatal : InitArgs where
  first_obj := .subject subjectA
  chart_type := .Natal
  second_obj := none
  theme := some "classic"
  double_chart_aspect_grid_type := .list
  active_points := ["Sun"]
  known_themes := KNOWN_THEMES

def argsTransitTable : InitArgs :=
  { argsNatal with
      chart_type := .Transit, second_obj := some subjectB,
      double_chart_aspect_grid_type := .table }

def argsCompositeX : InitArgs :=
  { argsNatal with chart_type := .Composite, first_obj := .composite compositeAB }

/-- Fallback state for total extraction from `Except` (never the value of a
successful run below). -/
def emptyChartState : ChartState where
  chart_type := .Natal
  user := .subject defaultSubject
  t_user := none
  available_planets_setting := []
  aspects_list := []
  double_chart_aspect_grid_type := .list
  height := 0
  width := 0
  location := ""
  geolat := 0
  geolon := 0
  t_name := none
  main_radius := 0
  first_circle_radius := 0
  second_circle_radius := 0
  third_circle_radius := 0
  fire := 0
  earth := 0
  air := 0
  water := 0
  color_style_tag := ""
  language_settings := []
  chart_colors_settings := fun _ => ""
  planets_settings := []
  aspects_settings := []

def stateNatalX : ChartState :=
  (init collabX settingsEN argsNatal).toOption.getD emptyChartState

def stateNatalEmptyLang : ChartState :=
  (init collabX settingsEmptyLang argsNatal).toOption.getD emptyChartState

def stateNatalMinimal : ChartState :=
  (init collabX settingsMinimalNatal argsNatal).toOption.getD emptyChartState

def stateTransitTable : ChartState :=
  (init collabX settingsEN argsTransitTable).toOption.getD emptyChartState

def stateCompositeX : ChartState :=
  (init collabX settingsEN argsCompositeX).toOption.getD emptyChartState

/-- C4: construction fails fatally when (a) Transit/Synastry lack a second
object, (b) Composite gets a non-composite first object, (c) the theme is
neither `None` nor a known theme name; in each case no state is produced. -/
theorem init_raises_on_misconfiguration (collab : Collab) (settings : Settings)
    (args : InitArgs) :
    ((args.chart_type = .Transit ∨ args.chart_type = .Synastry) → args.second_obj = none →
       init collab settings args = .error .secondObjectRequired)
    ∧ (args.chart_type = .Composite → (∀ c, args.first_obj ≠ .composite c) →
       init collab settings args = .error .firstObjectMustBeComposite)
    ∧ (∀ t, args.theme = some t → args.known_themes.contains t = false →
       ∀ s, init collab settings args ≠ .ok s) := by
  refine ⟨?_, ?_, ?_⟩
  · rintro (hct | hct) hso <;> simp [init, hct, hso, Bind.bind, Except.bind]
  · intro hct hnc
    cases hfo : args.first_obj with
    | composite c => exact absurd hfo (hnc c)
    | subject sub => simp [init, hct, hfo, Bind.bind, Except.bind]
  · intro t ht hmem s hok
    have hth : themeCheck args.theme args.known_themes = .error (.themeNotAvailable t) := by
      rw [ht]
      simp only [themeCheck]
      rw [if_neg (by rw [hmem]; simp)]
    cases hct : args.chart_type
    case Natal | ExternalNatal =>
      simp [init, hct, hth, Bind.bind, Except.bind] at hok
    case Synastry =>
      cases hso : args.second_obj with
      | none => simp [init, hct, hso, Bind.bind, Except.bind] at hok
      | some t2 => simp [init, hct, hso, hth, Bind.bind, Except.bind] at hok
    case Transit =>
      cases hso : args.second_obj with
      | none => simp [init, hct, hso, Bind.bind, Except.bind] at hok
      | some t2 =>
        cases hlk : langIndex settings.language_settings "transit_name" with
        | error e => simp [init, hct, hso, hlk, Bind.bind, Except.bind] at hok
        | ok tn => simp [init, hct, hso, hlk, hth, Bind.bind, Except.bind] at hok
    case Composite =>
      cases hfo : args.first_obj with
      | subject sub => simp [init, hct, hfo, Bind.bind, Except.bind] at hok
      | composite c => simp [init, hct, hfo, hth, Bind.bind, Except.bind] at hok

/-- Witness for C4: a Transit chart without a second subject, a Composite
chart fed a plain subject, and an unknown theme name all fail. -/
theorem init_raises_on_misconfiguration_witness :
    init collabX settingsEN { argsNatal with chart_type := .Transit, second_obj := none }
        = .error .secondObjectRequired
    ∧ init collabX settingsEN { argsNatal with chart_type := .Composite }
        = .error .firstObjectMustBeComposite
    ∧ (init collabX settingsEN { argsNatal with theme := some "neon" }).isOk = false := by
  refine ⟨?_, ?_, ?_⟩
  · exact (init_raises_on_misconfiguration collabX settingsEN _).1 (Or.inl rfl) rfl
  · exact (init_raises_on_misconfiguration collabX settingsEN _).2.1 rfl
      (fun c hc => by cases hc)
  · have h := (init_raises_on_misconfiguration collabX settingsEN
      { argsNatal with theme := some "neon" }).2.2 "neon" rfl (by decide)
    cases hi : init collabX settingsEN { argsNatal with theme := some "neon" } with
    | ok s => exact absurd hi (h s)
    | error e => rfl

/-- C5: after any successful construction the ring radii are
(56, 92, 112) for ExternalNatal and (0, 36, 120) otherwise, `main_radius`
is 240, and the radii are strictly increasing up to `main_radius`.  (State
fields are immutable in this embedding: no later operation rebuilds the
state, mirroring the absence of any later assignment in the source.) -/
theorem ring_radii_after_init (collab : Collab) (settings : Settings) (args : InitArgs)
    (s : ChartState) (h : init collab settings args = .ok s) :
    s.main_radius = 240
    ∧ (args.chart_type = .ExternalNatal →
        (s.first_circle_radius, s.second_circle_radius, s.third_circle_radius) = (56, 92, 112))
    ∧ (args.chart_type ≠ .ExternalNatal →
        (s.first_circle_radius, s.second_circle_radius, s.third_circle_radius) = (0, 36, 120))
    ∧ s.first_circle_radius < s.second_circle_radius
    ∧ s.second_circle_radius < s.third_circle_radius
    ∧ s.third_circle_radius < s.main_radius := by
  obtain ⟨-, -, -, -, -, -, -, hmain, hradii, -, -, -, -⟩ :=
    init_ok_fields collab settings args s h
  have hineq : s.first_circle_radius < s.second_circle_radius
      ∧ s.second_circle_radius < s.third_circle_radius
      ∧ s.third_circle_radius < s.main_radius := by
    by_cases hext : args.chart_type = .ExternalNatal
    · rw [if_pos hext, Prod.mk.injEq, Prod.mk.injEq] at hradii
      obtain ⟨h1, h2, h3⟩ := hradii
      rw [h1, h2, h3, hmain]
      norm_num
    · rw [if_neg hext, Prod.mk.injEq, Prod.mk.injEq] at hradii
      obtain ⟨h1, h2, h3⟩ := hradii
      rw [h1, h2, h3, hmain]
      norm_num
  refine ⟨hmain, fun hext => ?_, fun hne => ?_, hineq.1, hineq.2.1, hineq.2.2⟩
  · rw [if_pos hext] at hradii; exact hradii
  · rw [if_neg hne] at hradii; exact hradii

/-- Witness for C5: the concrete Natal construction has radii (0, 36, 120)
inside `main_radius` 240. -/
theorem ring_radii_after_init_witness :
    stateNatalX.main_radius = 240
    ∧ (stateNatalX.first_circle_radius, stateNatalX.second_circle_radius,
        stateNatalX.third_circle_radius) = (0, 36, 120)
    ∧ stateNatalX.first_circle_radius < stateNatalX.second_circle_radius := by
  have h := ring_radii_after_init collabX settingsEN argsNatal stateNatalX rfl
  exact ⟨h.1, h.2.2.1 (by decide), h.2.2.2.1⟩

/-- C10: the rendered location string and coordinates are the first
subject's for Natal/ExternalNatal/Synastry, the transit subject's for
Transit, and for Composite the location is empty with coordinates the
arithmetic means of the two component subjects'. -/
theorem location_chosen_by_chart_type (collab : Collab) (settings : Settings)
    (args : InitArgs) (s : ChartState) (h : init collab settings args = .ok s) :
    ((args.chart_type = .Natal ∨ args.chart_type = .ExternalNatal
        ∨ args.chart_type = .Synastry) →
      s.location = args.first_obj.asSubject.city
      ∧ s.geolat = args.first_obj.asSubject.lat
      ∧ s.geolon = args.first_obj.asSubject.lng)
    ∧ (args.chart_type = .Transit → ∀ t, args.second_obj = some t →
        s.location = t.city ∧ s.geolat = t.lat ∧ s.geolon = t.lng)
    ∧ (args.chart_type = .Composite → ∀ c, args.first_obj = .composite c →
        s.location = ""
        ∧ s.geolat = (c.first_subject.lat + c.second_subject.lat) / 2
        ∧ s.geolon = (c.first_subject.lng + c.second_subject.lng) / 2) := by
  obtain ⟨-, -, -, -, -, -, -, -, -, -, hnat, hcomp, htrans⟩ :=
    init_ok_fields collab settings args s h
  refine ⟨hnat, fun hct t hso => (htrans hct).2 t hso, fun hct c hfo => ?_⟩
  have hc := hcomp hct
  rw [hfo] at hc
  simpa [FirstObj.asComposite] using hc

/-- Witness for C10: the concrete Composite construction uses an empty
location and midpoint coordinates. -/
theorem location_chosen_by_chart_type_witness :
    stateCompositeX.location = ""
    ∧ stateCompositeX.geolat
        = (compositeAB.first_subject.lat + compositeAB.second_subject.lat) / 2
    ∧ stateCompositeX.geolon
        = (compositeAB.first_subject.lng + compositeAB.second_subject.lng) / 2 := by
  exact (location_chosen_by_chart_type collabX settingsEN argsCompositeX stateCompositeX
    rfl).2.2 rfl compositeAB rfl

/-- What a successful template assembly determines about the dimension and
location slots, for any state. -/
theorem createTD_ok_fields (collab : Collab) (s : ChartState) (td : TemplateDict)
    (h : createTemplateDictionary collab s = .ok td) :
    td.chart_height = s.height
    ∧ td.chart_width = s.width
    ∧ td.viewbox
        = (if s.chart_type = .Natal ∨ s.chart_type = .ExternalNatal
              ∨ s.chart_type = .Composite then BASIC_CHART_VIEWBOX
           else if s.double_chart_aspect_grid_type = .table ∧ s.chart_type = .Transit then
             TRANSIT_CHART_WITH_TABLE_VIWBOX
           else WIDE_CHART_VIEWBOX)
    ∧ (s.chart_type ≠ .Composite →
        td.top_left_1 = (topLeftOneOfLocation s.location.data).asString) := by
  cases hct : s.chart_type
  case Natal =>
    simp only [createTemplateDictionary, hct, except_bind_ok, Except.ok.injEq] at h
    casesm* _ ∧ _, ∃ _, _
    subst_vars
    refine ⟨by simp, by simp, by simp [hct], fun hne => by simp [hct]⟩
  case ExternalNatal =>
    simp only [createTemplateDictionary, hct, except_bind_ok, Except.ok.injEq] at h
    casesm* _ ∧ _, ∃ _, _
    subst_vars
    refine ⟨by simp, by simp, by simp [hct], fun hne => by simp [hct]⟩
  case Transit =>
    simp only [createTemplateDictionary, hct, except_bind_ok, Except.ok.injEq] at h
    casesm* _ ∧ _, ∃ _, _
    subst_vars
    refine ⟨by simp, by simp, by simp [hct], fun hne => by simp [hct]⟩
  case Synastry =>
    simp only [createTemplateDictionary, hct, except_bind_ok, Except.ok.injEq] at h
    casesm* _ ∧ _, ∃ _, _
    subst_vars
    refine ⟨by simp, by simp, by simp [hct], fun hne => by simp [hct]⟩
  case Composite =>
    simp only [createTemplateDictionary, hct, except_bind_ok, Except.ok.injEq] at h
    casesm* _ ∧ _, ∃ _, _
    subst_vars
    exact ⟨by simp, by simp, by simp [hct], fun hne => absurd rfl hne⟩

/-- C2: for non-Composite charts the `top_left_1` slot is the location
string, abbreviated when longer than 35 characters: with a comma, first
segment + ", " + last segment, re-truncated to 35 characters plus "..."
when still too long; without a comma, the first 35 characters plus "...";
otherwise unchanged. -/
theorem top_left_one_truncation (location : List Char) :
    (35 < location.length → ',' ∈ location →
       topLeftOneOfLocation location =
         (let combined := (splitOnComma location).headD [] ++ commaSpaceChars
             ++ (splitOnComma location).getLastD []
          if 35 < combined.length then combined.take 35 ++ ellipsisChars else combined))
    ∧ (35 < location.length → ',' ∉ location →
       topLeftOneOfLocation location = location.take 35 ++ ellipsisChars)
    ∧ (location.length ≤ 35 → topLeftOneOfLocation location = location)
    ∧ (∀ (collab : Collab) (s : ChartState) (td : TemplateDict),
        s.chart_type ≠ .Composite → createTemplateDictionary collab s = .ok td →
        td.top_left_1 = (topLeftOneOfLocation s.location.data).asString) := by
  refine ⟨?_, ?_, ?_, ?_⟩
  · intro hlen hmem
    unfold topLeftOneOfLocation
    rw [if_pos hlen, if_pos ((splitOnComma_length_gt_one_iff location).mpr hmem)]
  · intro hlen hmem
    unfold topLeftOneOfLocation
    rw [if_pos hlen,
      if_neg (fun h => hmem ((splitOnComma_length_gt_one_iff location).mp h))]
  · intro hlen
    unfold topLeftOneOfLocation
    rw [if_neg (by omega)]
  · intro collab s td hne h
    exact (createTD_ok_fields collab s td h).2.2.2 hne

/-- Witness for C2: a 50-character location with commas abbreviates to
first segment + ", " + last segment; here that combination is short
enough to stand. -/
theorem top_left_one_truncation_witness :
    (35 < ("Springfield, Some County, Some State, Some Country".data).length
      ∧ ',' ∈ "Springfield, Some County, Some State, Some Country".data)
    ∧ topLeftOneOfLocation ("Springfield, Some County, Some State, Some Country".data)
        = (let combined := (splitOnComma ("Springfield, Some County, Some State, Some Country".data)).headD []
             ++ commaSpaceChars
             ++ (splitOnComma ("Springfield, Some County, Some State, Some Country".data)).getLastD []
           if 35 < combined.length then combined.take 35 ++ ellipsisChars else combined) := by
  refine ⟨⟨by decide, by decide⟩, ?_⟩
  exact (top_left_one_truncation ("Springfield, Some County, Some State, Some Country".data)).1
    (by decide) (by decide)

instance : Inhabited TemplateDict :=
  ⟨{ color_style_tag := "", chart_height := 0, chart_width := 0, viewbox := "",
     transitRing := "", degreeRing := "", first_circle := "", second_circle := "",
     third_circle := "", makeAspectGrid := "", makeAspects := "", stringTitle := "",
     bottom_left_0 := "", bottom_left_1 := "", bottom_left_2 := "", bottom_left_3 := "",
     bottom_left_4 := "", lunar_phase_rotate := 0, lunar_phase_circle_center_x := 0,
     lunar_phase_circle_radius := 0, top_left_0 := "", top_left_1 := "", top_left_2 := "",
     top_left_3 := "", top_left_4 := "", top_left_5 := "", paper_color_0 := "",
     paper_color_1 := "", makeZodiac := "", makeHousesGrid := "", makeHouses := "",
     makePlanets := "", fire_string := "", earth_string := "", air_string := "",
     water_string := "", makePlanetGrid := "" }⟩

def tdTransitTable : TemplateDict :=
  (createTemplateDictionary collabX stateTransitTable).toOption.getD default

/-- C9: every chart's `chart_height` slot is 550; the `chart_width` slot is
1200 for Synastry and Transit (including Transit with the "table" aspect
grid: the 960 width branch is unreachable because the Synastry/Transit
test precedes it) and 820 otherwise, even though the Transit-with-table
viewbox preset is "0 0 960 546.0". -/
theorem chart_dimensions (collab collab2 : Collab) (settings : Settings) (args : InitArgs)
    (s : ChartState) (td : TemplateDict)
    (h : init collab settings args = .ok s)
    (h2 : createTemplateDictionary collab2 s = .ok td) :
    td.chart_height = 550
    ∧ ((args.chart_type = .Synastry ∨ args.chart_type = .Transit) → td.chart_width = 1200)
    ∧ (¬(args.chart_type = .Synastry ∨ args.chart_type = .Transit) → td.chart_width = 820)
    ∧ (args.chart_type = .Transit → args.double_chart_aspect_grid_type = .table →
        td.chart_width = 1200 ∧ td.viewbox = "0 0 960 546.0") := by
  obtain ⟨hct, -, -, hgrid, -, hheight, hwidth, -, -, -, -, -, -⟩ :=
    init_ok_fields collab settings args s h
  obtain ⟨h1, h2w, h3, -⟩ := createTD_ok_fields collab2 s td h2
  refine ⟨?_, ?_, ?_, ?_⟩
  · rw [h1, hheight]; rfl
  · intro hd
    rw [h2w, hwidth, if_pos hd]; rfl
  · intro hd
    rw [h2w, hwidth, if_neg hd, if_neg (fun hc => hd (Or.inr hc.2))]; rfl
  · intro htr htab
    constructor
    · rw [h2w, hwidth, if_pos (Or.inr htr)]; rfl
    · rw [hct, htr, hgrid, htab] at h3
      simpa [TRANSIT_CHART_WITH_TABLE_VIWBOX] using h3

/-- Witness for C9: the concrete Transit chart with the "table" grid style
renders width 1200 with the 960-wide viewbox preset. -/
theorem chart_dimensions_witness :
    tdTransitTable.chart_height = 550 ∧ tdTransitTable.chart_width = 1200
    ∧ tdTransitTable.viewbox = "0 0 960 546.0" := by
  have h := chart_dimensions collabX collabX settingsEN argsTransitTable stateTransitTable
    tdTransitTable rfl rfl
  exact ⟨h.1, (h.2.2.2 rfl rfl).1, (h.2.2.2 rfl rfl).2⟩

/-! ### Element score arithmetic (supporting C7) -/

/-- The raw total the percentage computation divides by. -/
def totalOf (st : ElemState) : ℚ :=
  st.fire + st.earth + st.air + st.water

theorem extraPointsFor_nonneg (related : List ℕ) (cz : ℕ) : 0 ≤ extraPointsFor related cz := by
  rw [extraPointsFor_eq]
  split
  · norm_num [PLANET_IN_ZODIAC_EXTRA_POINTS]
  · exact le_refl 0

theorem elementsStep_total (st : ElemState) (b : CelestialPointSetting) (sign : Fin 12) :
    totalOf (elementsStep st b sign)
      = totalOf st + b.element_points + extraPointsFor b.related_zodiac_signs sign.val := by
  unfold elementsStep
  cases zodiacElement sign <;> simp [totalOf] <;> ring

theorem elementsStep_bucket_le (st : ElemState) (b : CelestialPointSetting) (sign : Fin 12)
    (hb : 0 ≤ b.element_points) (e : Element) :
    st.bucket e ≤ (elementsStep st b sign).bucket e := by
  have hx := extraPointsFor_nonneg b.related_zodiac_signs sign.val
  unfold elementsStep
  cases zodiacElement sign <;> cases e <;> simp [ElemState.bucket] <;> linarith

theorem foldl_elementsStep_bucket_le (L : List (CelestialPointSetting × Fin 12))
    (hL : ∀ p ∈ L, 0 ≤ p.1.element_points) :
    ∀ (st : ElemState) (e : Element),
      st.bucket e ≤ (L.foldl (fun st p => elementsStep st p.1 p.2) st).bucket e := by
  induction L with
  | nil => intro st e; simp
  | cons p ps ih =>
    intro st e
    simp only [List.foldl_cons]
    calc st.bucket e
        ≤ (elementsStep st p.1 p.2).bucket e :=
          elementsStep_bucket_le st p.1 p.2 (hL p (List.mem_cons_self p ps)) e
      _ ≤ _ := ih (fun q hq => hL q (List.mem_cons_of_mem p hq)) _ e

theorem foldl_elementsStep_total_le (L : List (CelestialPointSetting × Fin 12))
    (hL : ∀ p ∈ L, 0 ≤ p.1.element_points) :
    ∀ st : ElemState,
      totalOf st ≤ totalOf (L.foldl (fun st p => elementsStep st p.1 p.2) st) := by
  induction L with
  | nil => intro st; simp
  | cons p ps ih =>
    intro st
    simp only [List.foldl_cons]
    have h1 := elementsStep_total st p.1 p.2
    have h2 := hL p (List.mem_cons_self p ps)
    have h3 := extraPointsFor_nonneg p.1.related_zodiac_signs p.2.val
    calc totalOf st ≤ totalOf (elementsStep st p.1 p.2) := by rw [h1]; linarith
      _ ≤ _ := ih (fun q hq => hL q (List.mem_cons_of_mem p hq)) _

theorem zero_bucket (e : Element) : (⟨0, 0, 0, 0⟩ : ElemState).bucket e = 0 := by
  cases e <;> rfl

theorem calculate_bucket_nonneg (user : FirstObj) (l : List CelestialPointSetting)
    (h : ∀ b ∈ l, 0 ≤ b.element_points) (e : Element) :
    0 ≤ (calculateElementsPointsFromPlanets user l).bucket e := by
  unfold calculateElementsPointsFromPlanets
  have hL : ∀ p ∈ l.map (fun b => (b, user.asSubject.pointSign b.name.toLower)),
      0 ≤ p.1.element_points := by
    intro p hp
    obtain ⟨b, hb, rfl⟩ := List.mem_map.mp hp
    exact h b hb
  have := foldl_elementsStep_bucket_le
    (l.map (fun b => (b, user.asSubject.pointSign b.name.toLower))) hL ⟨0, 0, 0, 0⟩ e
  rw [zero_bucket] at this
  exact this

theorem calculate_total_pos (user : FirstObj) (l : List CelestialPointSetting)
    (hne : l ≠ []) (hpos : ∀ b ∈ l, 0 < b.element_points) :
    0 < totalOf (calculateElementsPointsFromPlanets user l) := by
  unfold calculateElementsPointsFromPlanets
  cases l with
  | nil => exact absurd rfl hne
  | cons b bs =>
    simp only [List.map_cons, List.foldl_cons]
    have hL : ∀ p ∈ bs.map (fun b => (b, user.asSubject.pointSign b.name.toLower)),
        0 ≤ p.1.element_points := by
      intro p hp
      obtain ⟨b2, hb2, rfl⟩ := List.mem_map.mp hp
      exact le_of_lt (hpos b2 (List.mem_cons_of_mem b hb2))
    have hmono := foldl_elementsStep_total_le
      (bs.map (fun b => (b, user.asSubject.pointSign b.name.toLower))) hL
      (elementsStep ⟨0, 0, 0, 0⟩ b (user.asSubject.pointSign b.name.toLower))
    have hstep := elementsStep_total (⟨0, 0, 0, 0⟩ : ElemState) b
      (user.asSubject.pointSign b.name.toLower)
    have hb := hpos b (List.mem_cons_self b bs)
    have hx := extraPointsFor_nonneg b.related_zodiac_signs
      (user.asSubject.pointSign b.name.toLower).val
    have hzero : totalOf (⟨0, 0, 0, 0⟩ : ElemState) = 0 := by norm_num [totalOf]
    calc (0 : ℚ) < totalOf (elementsStep ⟨0, 0, 0, 0⟩ b (user.asSubject.pointSign b.name.toLower)) := by
          rw [hstep, hzero]; linarith
      _ ≤ _ := hmono

theorem bucket_le_totalOf (st : ElemState) (h : ∀ e, 0 ≤ st.bucket e) (e : Element) :
    st.bucket e ≤ totalOf st := by
  have hf := h .fire
  have he := h .earth
  have ha := h .air
  have hw := h .water
  simp only [ElemState.bucket] at hf he ha hw
  cases e <;> simp only [ElemState.bucket, totalOf] <;> linarith

theorem percentageOf_bounds (x total : ℚ) (hx : 0 ≤ x) (hxt : x ≤ total) (ht : 0 < total) :
    0 ≤ percentageOf x total ∧ percentageOf x total ≤ 100 := by
  have hq0 : 0 ≤ 100 * x / total := by positivity
  have hq1 : 100 * x / total ≤ 100 := by
    rw [div_le_iff₀ ht]
    nlinarith
  unfold percentageOf
  rw [round_eq]
  constructor
  · exact Int.floor_nonneg.mpr (by linarith)
  · have h101 : 100 * x / total + 1 / 2 < ((101 : ℤ) : ℚ) := by push_cast; linarith
    have := Int.floor_lt.mpr h101
    omega

/-- Modelled from the spec: the shipped celestial-point settings file is
not part of `src/`; per the spec's element-balance contract (a base
weight accumulated per active point, totals strictly positive whenever a
point is active) every configured point carries a positive
`element_points` weight. -/
abbrev SettingsWeightsPositive (l : List CelestialPointSetting) : Prop :=
  ∀ b ∈ l, 0 < b.element_points

/-- C7: after any successful construction with at least one active point
(whose configured weights are positive, as in the shipped settings), the
raw element total `fire + water + earth + air` is strictly positive and
each displayed percentage `int(round(100 * score / total))` lies in
[0, 100]. -/
theorem element_total_positive_and_percentages_bounded (collab : Collab)
    (settings : Settings) (args : InitArgs) (s : ChartState)
    (h : init collab settings args = .ok s)
    (hne : s.available_planets_setting ≠ [])
    (hpos : SettingsWeightsPositive s.available_planets_setting) :
    0 < s.fire + s.water + s.earth + s.air
    ∧ (0 ≤ percentageOf s.fire (s.fire + s.water + s.earth + s.air)
        ∧ percentageOf s.fire (s.fire + s.water + s.earth + s.air) ≤ 100)
    ∧ (0 ≤ percentageOf s.earth (s.fire + s.water + s.earth + s.air)
        ∧ percentageOf s.earth (s.fire + s.water + s.earth + s.air) ≤ 100)
    ∧ (0 ≤ percentageOf s.air (s.fire + s.water + s.earth + s.air)
        ∧ percentageOf s.air (s.fire + s.water + s.earth + s.air) ≤ 100)
    ∧ (0 ≤ percentageOf s.water (s.fire + s.water + s.earth + s.air)
        ∧ percentageOf s.water (s.fire + s.water + s.earth + s.air) ≤ 100) := by
  obtain ⟨-, -, -, -, havail, -, -, -, -, helem, -, -, -⟩ :=
    init_ok_fields collab settings args s h
  rw [havail] at hne hpos
  have hf := congrArg ElemState.fire helem
  have hea := congrArg ElemState.earth helem
  have hai := congrArg ElemState.air helem
  have hwa := congrArg ElemState.water helem
  simp only at hf hea hai hwa
  have htot : s.fire + s.water + s.earth + s.air
      = totalOf (calculateElementsPointsFromPlanets args.first_obj
          (settings.planets_settings.filter
            (fun body => args.active_points.contains body.name))) := by
    rw [hf, hea, hai, hwa, totalOf]
    ring
  have hposT := calculate_total_pos args.first_obj _ hne hpos
  have hbn := calculate_bucket_nonneg args.first_obj
    (settings.planets_settings.filter (fun body => args.active_points.contains body.name))
    (fun b hb => le_of_lt (hpos b hb))
  have hble := bucket_le_totalOf
    (calculateElementsPointsFromPlanets args.first_obj
      (settings.planets_settings.filter (fun body => args.active_points.contains body.name)))
    hbn
  refine ⟨by rw [htot]; exact hposT, ?_, ?_, ?_, ?_⟩
  · rw [htot, hf]
    exact percentageOf_bounds _ _ (hbn .fire) (hble .fire) hposT
  · rw [htot, hea]
    exact percentageOf_bounds _ _ (hbn .earth) (hble .earth) hposT
  · rw [htot, hai]
    exact percentageOf_bounds _ _ (hbn .air) (hble .air) hposT
  · rw [htot, hwa]
    exact percentageOf_bounds _ _ (hbn .water) (hble .water) hposT

/-- Witness for C7: the concrete Natal chart (Sun in Leo, weight 40 + 10
bonus) has a positive total and its fire percentage within bounds. -/
theorem element_total_positive_witness :
    0 < stateNatalX.fire + stateNatalX.water + stateNatalX.earth + stateNatalX.air
    ∧ 0 ≤ percentageOf stateNatalX.fire
        (stateNatalX.fire + stateNatalX.water + stateNatalX.earth + stateNatalX.air)
    ∧ percentageOf stateNatalX.fire
        (stateNatalX.fire + stateNatalX.water + stateNatalX.earth + stateNatalX.air) ≤ 100 := by
  have h := element_total_positive_and_percentages_bounded collabX settingsEN argsNatal
    stateNatalX rfl (by decide) (by decide)
  exact ⟨h.1, h.2.1.1, h.2.1.2⟩

/-- C8 counterexample: assembling a Natal chart against an empty language
table does fail — the `top_left_0` label "info" is fetched by direct
indexing (`self.language_settings["info"]`, line 635), not through the
defaulted accessor, so a missing key raises `KeyError` instead of falling
back to an English literal. -/
theorem missing_language_key_aborts_assembly :
    createTemplateDictionary collabX stateNatalEmptyLang = .error (.keyError "info") := by
  rfl

/-- C8 (amended): lookups made through the defaulted accessor
(`language_settings.get(key, default)`) never fail and fall back to their
English literal; but several labels (for a Natal chart: "info", the
cardinal direction words, "latitude", "longitude", "type", "cusp", the
four element names, "planets_and_house", "celestial_points") are fetched
by direct indexing and abort assembly with a `KeyError` when absent.
With exactly those keys present, assembly completes and every defaulted
label renders its English fallback (e.g. `bottom_left_0` becomes
"Placidus Houses" from a table holding neither "houses_system_P" nor
"houses"). -/
theorem language_fallback_and_direct_indexing :
    (∀ (table : LangTable) (k d : String), langLookup table k = none → langGet table k d = d)
    ∧ (createTemplateDictionary collabX stateNatalMinimal).isOk = true
    ∧ (createTemplateDictionary collabX stateNatalMinimal).map TemplateDict.bottom_left_0
        = .ok "Placidus Houses" := by
  refine ⟨?_, by rfl, by rfl⟩
  intro table k d hl
  unfold langGet
  rw [hl]
  rfl

/-- Witness for C8's amended theorem: the defaulted accessor, given an
empty table, returns the English literal. -/
theorem language_fallback_and_direct_indexing_witness :
    langGet [] "houses" "Houses" = "Houses" :=
  language_fallback_and_direct_indexing.1 [] "houses" "Houses" rfl

/-- C6: rendering is a pure function of the instance state: a successful
`makeTemplate` leaves the state unchanged (the redundant second slot-map
assembly included), and calling it again with the same flags returns the
byte-identical string. -/
theorem makeTemplate_pure (collab : Collab) (s : ChartState)
    (minify remove_css_variables : Bool) (out : String) (s' : ChartState)
    (h : makeTemplate collab s minify remove_css_variables = .ok (out, s')) :
    s' = s ∧ makeTemplate collab s' minify remove_css_variables = .ok (out, s') := by
  cases htd : createTemplateDictionary collab s with
  | error e =>
    rw [makeTemplate] at h
    simp [htd, Bind.bind, Except.bind] at h
  | ok td =>
    rw [makeTemplate] at h
    simp only [htd, Bind.bind, Except.bind] at h
    rw [Except.ok.injEq, Prod.mk.injEq] at h
    obtain ⟨hout, hs⟩ := h
    subst hs
    refine ⟨rfl, ?_⟩
    rw [makeTemplate]
    simp only [htd, Bind.bind, Except.bind]
    rw [hout]

/-- The string the concrete Natal render produces. -/
def outNatalMinimal : String :=
  ((makeTemplate collabX stateNatalMinimal false false).toOption.map Prod.fst).getD ""

/-- Witness for C6: the concrete Natal render succeeds, leaves its state
unchanged, and a second call returns the identical string. -/
theorem makeTemplate_pure_witness :
    stateNatalMinimal = stateNatalMinimal
    ∧ makeTemplate collabX stateNatalMinimal false false
        = .ok (outNatalMinimal, stateNatalMinimal) :=
  makeTemplate_pure collabX stateNatalMinimal false false outNatalMinimal stateNatalMinimal rfl

end Kerykeion
